import Mathlib

/-!
Shallow embedding of the Discord-Scheduled-Messenger repository
(`src/DiscordMessenger.py`, `src/aws_hook.py`) together with proofs about
the claims of its specification.

Conventions of the embedding:
* DynamoDB attribute values are modelled as strings (numeric attributes hold
  their decimal rendering); the table is a list of rows plus an availability
  flag standing for backing-store reachability (a boto `ClientError` is
  raised exactly when the flag is off).
* The in-memory recurring-job scheduler is an external library (APScheduler)
  whose code is not part of the repository; it is modelled from the spec,
  section 4.2 (see the doc comments of the `Scheduler` operations).
* Python exceptions are explicit values: a function that can raise returns
  `Except` or pairs its result with an `Option` error.
-/

/-- Helper of `tokenize`: walks the character list, `acc` holding the
(reversed) characters of the token being read. -/
def splitCharsAux : List Char → List Char → List String
  | [], acc => if acc = [] then [] else [String.mk acc.reverse]
  | c :: cs, acc =>
    if c = ' ' then
      if acc = [] then splitCharsAux cs []
      else String.mk acc.reverse :: splitCharsAux cs []
    else splitCharsAux cs (c :: acc)

/-- Python `str.split()`: whitespace tokenization dropping empty tokens,
modelled on the space character and written over the character list of the
string so that it is kernel-computable. -/
def tokenize (content : String) : List String :=
  splitCharsAux content.data []

/-- Python `int(str(x))` on a decimal rendering: parses a non-empty
all-digit string, failing (a raised `ValueError`) otherwise. Written over
the character list of the string so that it is kernel-computable. -/
def parseNat? (s : String) : Option Nat :=
  if s.data ≠ [] ∧ s.data.all Char.isDigit then
    some (s.data.foldl (fun n c => n * 10 + (c.toNat - '0'.toNat)) 0)
  else none

/-- Python `" ".join(xs)`. -/
def joinSpace : List String → String
  | [] => ""
  | [x] => x
  | x :: y :: xs => x ++ " " ++ joinSpace (y :: xs)

/-- A chat user as the transport library exposes it (`discord.User`):
an id and a display name. -/
structure User where
  id : Nat
  name : String
deriving DecidableEq, Repr

/-- A chat channel; `isDM` tells a private (direct-message) channel from a
shared one (`isinstance(channel, discord.DMChannel)` in the source). -/
structure Chan where
  id : Nat
  isDM : Bool
deriving DecidableEq, Repr

/-- An incoming chat message (`discord.Message`): its raw text content, its
author, the channel it arrived in, the users it mentions, and whether it
mentions the bot (`client.user.mentioned_in(message)`). -/
structure Message where
  content : String
  author : User
  channel : Chan
  mentions : List User
  mentionsBot : Bool
deriving DecidableEq, Repr

/-- A delivered message, as produced by `DiscordMessenger.send_message`:
the id of the endpoint it was sent to and the full text sent. -/
structure SentMsg where
  endpointId : Nat
  text : String
deriving DecidableEq, Repr

/-- One row of the DynamoDB table (`aws_hook.py`, `MessageDB.add`): keyed by
`(user, date_created)`, carrying the message body, the delivery target and
the schedule. All attribute values are modelled as strings. -/
structure Record where
  user : String
  date_created : String
  message : String
  recipient_name : String
  recipient_id : String
  channel_id : String
  interval : String
  status : String
deriving DecidableEq, Repr

/-- The attribute names of the persisted table layout. `MessageDB.update`
receives the attribute name as a string in the source; the model restricts
it to the attributes of the schema. -/
inductive Column
  | user
  | date_created
  | message
  | recipient_name
  | recipient_id
  | channel_id
  | interval
  | status
deriving DecidableEq, Repr

/-- Reading one attribute of a row. -/
def getField (r : Record) : Column → String
  | .user => r.user
  | .date_created => r.date_created
  | .message => r.message
  | .recipient_name => r.recipient_name
  | .recipient_id => r.recipient_id
  | .channel_id => r.channel_id
  | .interval => r.interval
  | .status => r.status

/-- Writing one attribute of a row (the effect of the `SET` clause of
`MessageDB.update`). -/
def setField (r : Record) (f : Column) (v : String) : Record :=
  match f with
  | .user => { r with user := v }
  | .date_created => { r with date_created := v }
  | .message => { r with message := v }
  | .recipient_name => { r with recipient_name := v }
  | .recipient_id => { r with recipient_id := v }
  | .channel_id => { r with channel_id := v }
  | .interval => { r with interval := v }
  | .status => { r with status := v }

/-- The DynamoDB table state: its rows plus an availability flag. `avail`
models backing-store reachability; boto raises a client error exactly when
the store is unreachable. -/
structure Store where
  avail : Bool
  items : List Record
deriving DecidableEq, Repr

/-- Errors of the DynamoDB layer: a failed `ConditionExpression`
(`ConditionalCheckFailedException`) or a connectivity failure. -/
inductive DynErr
  | conditionalCheckFailed
  | storageUnavailable
deriving DecidableEq, Repr

/-- Python exceptions that surface in `DiscordMessenger`. -/
inductive PyErr
  | nameError
  | attributeError
  | jobLookupError
  | typeError
deriving DecidableEq, Repr

/-- The message of each modelled Python exception (what `print(e)` shows). -/
def pyErrMsg : PyErr → String
  | .nameError => "NameError: name messsage is not defined"
  | .attributeError => "AttributeError: MessageDB object has no attribute update_status"
  | .jobLookupError => "JobLookupError"
  | .typeError => "TypeError"

/-- Point lookup of the row at key `(user, date_created)`. -/
def findRecord (store : Store) (user date : String) : Option Record :=
  store.items.find? (fun r => r.user = user ∧ r.date_created = date)

namespace MessageDB

/-- `MessageDB.add` (aws_hook.py:93-120): an unconditional `put_item` of the
new row. DynamoDB `put_item` replaces any existing item with the same key;
there is no `ConditionExpression`, so no duplicate-key failure exists. The
`except ClientError: raise` clause re-raises connectivity failures. -/
def add (store : Store) (date_created user message recipient_name recipient_id channel_id interval status : String) :
    Except DynErr Store :=
  if store.avail then
    let item : Record :=
      { user := user, date_created := date_created, message := message,
        recipient_name := recipient_name, recipient_id := recipient_id,
        channel_id := channel_id, interval := interval, status := status }
    .ok { store with
          items := item :: store.items.filter
            (fun r => ¬ (r.user = user ∧ r.date_created = date_created)) }
  else
    .error .storageUnavailable

/-- The `table.update_item` call inside `MessageDB.update`
(aws_hook.py:142-160): on the row at `Key=(user, date_created)` it runs
`SET #st = :status_value` under the condition
`#usr = :user_value and #dt = :date_value and #st <> :status_value`.
On a missing row the condition evaluates false, so the call raises
`ConditionalCheckFailedException`; when the row exists the key clauses hold
trivially and the condition reduces to the target attribute differing from
the new value. A connectivity failure raises as well. -/
def update_item (store : Store) (user date : String) (key : Column) (new : String) :
    Except DynErr Store :=
  if store.avail then
    match findRecord store user date with
    | none => .error .conditionalCheckFailed
    | some r =>
      if getField r key ≠ new then
        .ok { store with
              items := store.items.map
                (fun q => if q.user = user ∧ q.date_created = date then setField q key new else q) }
      else
        .error .conditionalCheckFailed
  else
    .error .storageUnavailable

/-- `MessageDB.update` (aws_hook.py:132-163): wraps `update_item` in
`try: ... return True / except Exception: return False`. Every exception —
a conditional-check miss as much as a connectivity failure — is swallowed
and reported as `false`; on failure the table is unchanged. -/
def update (store : Store) (user date : String) (key : Column) (new : String) :
    Bool × Store :=
  match update_item store user date key new with
  | .ok store1 => (true, store1)
  | .error _ => (false, store)

/-- `MessageDB.delete` (aws_hook.py:122-130): the body reads
`return self.update_status(user, date, "status", "Deleted")`, but the class
defines no method named `update_status` (the method is `update`), so every
call raises `AttributeError` before touching the table. -/
def delete (_store : Store) (_user _date : String) : Except PyErr (Bool × Store) :=
  .error .attributeError

/-- `MessageDB.lookup` (aws_hook.py:165-176): a key-condition query on one
column followed by a filter dropping rows whose `status` is `"Deleted"`. -/
def lookup (store : Store) (column : Column) (inquiry : String) : List Record :=
  (store.items.filter (fun r => getField r column = inquiry)).filter
    (fun r => r.status ≠ "Deleted")

/-- `MessageDB.load_all` (aws_hook.py:178-196): a paginated scan with
`PaginationConfig = MaxItems 5000, PageSize 10` — the paginator stops after
5000 scanned items — yielding every scanned row whose `status` is not
`"Deleted"`. -/
def load_all (store : Store) : List Record :=
  (store.items.take 5000).filter (fun r => r.status ≠ "Deleted")

end MessageDB

/-- One registered recurring job of the scheduler: its id, its firing period
in seconds and whether it is currently suspended. -/
structure SchedJob where
  jobId : String
  seconds : Nat
  paused : Bool
deriving DecidableEq, Repr

/-- The in-memory timer registry of the Recurring Job Scheduler. -/
abbrev Scheduler : Type := List SchedJob

/-- Scheduler mutation on an unknown job identity. -/
inductive SchedErr
  | jobNotFound
deriving DecidableEq, Repr

/-- Modelled from the spec: the Recurring Job Scheduler is APScheduler,
whose code is not part of this repository; `schedule(jobId, interval, cb)`
per section 4.2 registers a periodic timer, armed, replacing any existing
job with the same id (last-write-wins). -/
def addJob (sched : Scheduler) (jid : String) (secs : Nat) : Scheduler :=
  { jobId := jid, seconds := secs, paused := false } ::
    List.filter (fun j => j.jobId ≠ jid) sched

/-- Modelled from the spec: `pause(jobId)` per section 4.2 suspends firing
without losing registration and fails with `JobNotFound` when the id is
absent; pausing an already-paused job is an idempotent no-op. -/
def pauseJob (sched : Scheduler) (jid : String) : Except SchedErr Scheduler :=
  if List.any sched (fun j => j.jobId = jid) then
    .ok (List.map (fun j => if j.jobId = jid then { j with paused := true } else j) sched)
  else
    .error .jobNotFound

/-- Modelled from the spec: `resume(jobId)` per section 4.2 reinstates
firing and fails with `JobNotFound` when the id is absent. -/
def resumeJob (sched : Scheduler) (jid : String) : Except SchedErr Scheduler :=
  if List.any sched (fun j => j.jobId = jid) then
    .ok (List.map (fun j => if j.jobId = jid then { j with paused := false } else j) sched)
  else
    .error .jobNotFound

/-- Modelled from the spec: `reschedule(jobId, newInterval)` per section 4.2
changes the firing period of an existing timer without resetting its
armed/paused state and fails with `JobNotFound` when the id is absent. -/
def rescheduleJob (sched : Scheduler) (jid : String) (secs : Nat) : Except SchedErr Scheduler :=
  if List.any sched (fun j => j.jobId = jid) then
    .ok (List.map (fun j => if j.jobId = jid then { j with seconds := secs } else j) sched)
  else
    .error .jobNotFound

/-- Modelled from the spec: `remove(jobId)` per section 4.2 unregisters the
timer and is a no-op (not an error) when the id is absent. -/
def removeJob (sched : Scheduler) (jid : String) : Scheduler :=
  List.filter (fun j => j.jobId ≠ jid) sched

/-- Number of armed (non-suspended) entries of the scheduler. -/
def armedCount (sched : Scheduler) : Nat :=
  List.countP (fun j => !j.paused) sched

/-- Number of suspended entries of the scheduler. -/
def pausedCount (sched : Scheduler) : Nat :=
  List.countP (fun j => j.paused) sched

/-- The Job Identity of a record: `item["user"] + item["date_created"]`,
plain concatenation with no separator. -/
def jobIdOf (r : Record) : String := r.user ++ r.date_created

/-- The whole mutable state the bot process owns: the table, the scheduler
registry, the messages sent so far, and the loaded help text. -/
structure SysState where
  db : Store
  sched : Scheduler
  sent : List SentMsg
  help_text : String
deriving DecidableEq, Repr

/-- The mention text of a user (`recipient.mention`). -/
def mentionOf (u : User) : String := "<@" ++ toString u.id ++ ">"

/-- Abort conditions of the reconciliation loop, each carrying the record
that caused it: `client.fetch_user` failing, `int(str(channel_id))` or
`int(str(interval))` failing to parse, or `pause_job` failing. -/
inductive SyncErr
  | fetchUserError (item : Record)
  | channelIdError (item : Record)
  | intervalError (item : Record)
  | pauseError (item : Record)
deriving DecidableEq, Repr

namespace DiscordMessenger

/-- `DiscordMessenger.send_message` (DiscordMessenger.py:77-106): with a
non-DM channel given, the message goes to the channel prefixed by the
recipient's mention; otherwise it goes to the recipient directly. -/
def send_message (recipient : User) (channel : Option Chan) (message : String) : SentMsg :=
  match channel with
  | some c =>
    if c.isDM = false then
      { endpointId := c.id, text := mentionOf recipient ++ " " ++ message }
    else
      { endpointId := recipient.id, text := message }
  | none => { endpointId := recipient.id, text := message }

/-- `DiscordMessenger._execute_list` (DiscordMessenger.py:109-127): queries
the table by the author's id and sends the formatted listing back. -/
def _execute_list (msg : Message) (s : SysState) : SysState × Option PyErr :=
  let response := MessageDB.lookup s.db .user (toString msg.author.id)
  let rows := String.join (response.map (fun row =>
    row.date_created ++ " " ++ row.status ++ " " ++ row.recipient_name ++
      " (" ++ row.interval ++ "s): " ++ row.message ++ "\n"))
  let out := "```\nList of all current messages\n------------------------------\n" ++ rows ++ "```"
  ({ s with sent := s.sent ++ [send_message msg.author (some msg.channel) out] }, none)

/-- `DiscordMessenger._execute_add` (DiscordMessenger.py:129-170). Its first
statement reads `len(messsage.mentions)`: the name `messsage` is undefined
(a typo for `message`), so the call raises `NameError` before the store or
the scheduler is touched; the rest of the body is unreachable. -/
def _execute_add (_msg : Message) (_recipient _time_interval : String) (_data : List String)
    (s : SysState) : SysState × Option PyErr :=
  (s, some .nameError)

/-- `DiscordMessenger._execute_update` (DiscordMessenger.py:173-192): an
unconditional store update of the `interval` attribute, then
`reschedule_job` on the derived job id. The source forwards the raw command
token as the seconds value; the model parses it at the scheduler boundary,
raising `TypeError` when it is not a number, and maps the scheduler's
unknown-id failure to `JobLookupError`. -/
def _execute_update (msg : Message) (timestamp time_interval : String)
    (s : SysState) : SysState × Option PyErr :=
  let upd := MessageDB.update s.db (toString msg.author.id) timestamp .interval time_interval
  match parseNat? time_interval with
  | none => ({ s with db := upd.2 }, some .typeError)
  | some secs =>
    match rescheduleJob s.sched (toString msg.author.id ++ timestamp) secs with
    | .ok sc => ({ s with db := upd.2, sched := sc }, none)
    | .error _ => ({ s with db := upd.2 }, some .jobLookupError)

/-- `DiscordMessenger._execute_delete` (DiscordMessenger.py:195-208): the
guard `if self.message_db.delete(...)` raises `AttributeError` (see
`MessageDB.delete`), so neither reply is sent and `remove_job` is never
reached; the unreachable continuation is still modelled after the source. -/
def _execute_delete (msg : Message) (timestamp : String)
    (s : SysState) : SysState × Option PyErr :=
  match MessageDB.delete s.db (toString msg.author.id) timestamp with
  | .error e => (s, some e)
  | .ok (deleted, db1) =>
    let reply := if deleted then "Message deleted" else "Timestamp does not exist"
    let s1 :=
      { s with
        db := db1
        sent := s.sent ++ [send_message msg.author (some msg.channel) reply] }
    ({ s1 with sched := removeJob s1.sched (toString msg.author.id ++ timestamp) }, none)

/-- `DiscordMessenger._execute_deactivate` (DiscordMessenger.py:210-219):
an unconditional store update setting `status` to the string `"Pause"`
(note: not `"Paused"`), followed by `pause_job` on the derived job id; the
store result is ignored, the scheduler mutation is issued regardless. -/
def _execute_deactivate (author : User) (timestamp : String)
    (s : SysState) : SysState × Option PyErr :=
  let upd := MessageDB.update s.db (toString author.id) timestamp .status "Pause"
  match pauseJob s.sched (toString author.id ++ timestamp) with
  | .ok sc => ({ s with db := upd.2, sched := sc }, none)
  | .error _ => ({ s with db := upd.2 }, some .jobLookupError)

/-- `DiscordMessenger._execute_activate` (DiscordMessenger.py:222-231):
an unconditional store update setting `status` to `"Active"`, followed by
`resume_job` on the derived job id. -/
def _execute_activate (author : User) (timestamp : String)
    (s : SysState) : SysState × Option PyErr :=
  let upd := MessageDB.update s.db (toString author.id) timestamp .status "Active"
  match resumeJob s.sched (toString author.id ++ timestamp) with
  | .ok sc => ({ s with db := upd.2, sched := sc }, none)
  | .error _ => ({ s with db := upd.2 }, some .jobLookupError)

/-- `DiscordMessenger._execute_help` (DiscordMessenger.py:233-240): sends
the loaded help text back. -/
def _execute_help (msg : Message) (s : SysState) : SysState × Option PyErr :=
  ({ s with sent := s.sent ++ [send_message msg.author (some msg.channel) s.help_text] }, none)

/-- The `match cmd` dispatch of `DiscordMessenger.on_message`
(DiscordMessenger.py:52-72): the message is tokenized, a leading bot
mention is stripped, and the first token selects the executed command;
unrecognized input falls through to `pass`. -/
def dispatch (msg : Message) (s : SysState) : SysState × Option PyErr :=
  let cmd0 := tokenize msg.content
  let cmd := if msg.mentionsBot then cmd0.drop 1 else cmd0
  match cmd with
  | ["list"] => _execute_list msg s
  | "add" :: recipient :: interval :: data
  | "send" :: recipient :: interval :: data
  | "spam" :: recipient :: interval :: data => _execute_add msg recipient interval data s
  | ["update", timestamp, interval] => _execute_update msg timestamp interval s
  | "delete" :: timestamp
  | "remove" :: timestamp => _execute_delete msg (joinSpace timestamp) s
  | "pause" :: timestamp
  | "deactivate" :: timestamp => _execute_deactivate msg.author (joinSpace timestamp) s
  | "unpause" :: timestamp
  | "activate" :: timestamp => _execute_activate msg.author (joinSpace timestamp) s
  | ["help"] => _execute_help msg s
  | _ => (s, none)

/-- `DiscordMessenger.on_message` (DiscordMessenger.py:41-75): empty-content
messages and the bot's own messages return immediately; everything else runs
through the dispatch inside `try: ... except Exception as e: print(e)`, so
an exception from parsing or execution is only logged. The second component
is the log of printed exception messages. -/
def on_message (bot : User) (msg : Message) (s : SysState) : SysState × List String :=
  if msg.content = "" ∨ msg.author = bot then
    (s, [])
  else
    match dispatch msg s with
    | (s1, none) => (s1, [])
    | (s1, some e) => (s1, [pyErrMsg e])

/-- `DiscordMessenger.__sync_scheduler` (DiscordMessenger.py:271-289): for
every record yielded by `load_all`, resolve the recipient via the transport
(`client.fetch_user`, modelled as the `fetch_user` parameter), check the
channel id (`int(str(item["channel_id"]))` is evaluated — and can raise —
only when the recipient id differs from it), register the job under
`item["user"] + item["date_created"]`, and pause it when the record's
status is `"Paused"`. The loop body has no exception handler: the first
failing record aborts the whole routine, returning the scheduler state
mutated so far together with the raised error. -/
def sync_scheduler (fetch_user : String → Option User) :
    List Record → Scheduler → Scheduler × Option SyncErr
  | [], sched => (sched, none)
  | item :: rest, sched =>
    match fetch_user item.recipient_id with
    | none => (sched, some (.fetchUserError item))
    | some recipient =>
      if toString recipient.id ≠ item.channel_id ∧ parseNat? item.channel_id = none then
        (sched, some (.channelIdError item))
      else
        match parseNat? item.interval with
        | none => (sched, some (.intervalError item))
        | some secs =>
          let jid := item.user ++ item.date_created
          let sched1 := addJob sched jid secs
          if item.status = "Paused" then
            match pauseJob sched1 jid with
            | .ok sched2 => sync_scheduler fetch_user rest sched2
            | .error _ => (sched1, some (.pauseError item))
          else
            sync_scheduler fetch_user rest sched1

/-- The whole reconciliation pass: `__sync_scheduler` run over the records
produced by `MessageDB.load_all`, starting from an empty registry. -/
def syncAll (fetch_user : String → Option User) (store : Store) : Scheduler × Option SyncErr :=
  sync_scheduler fetch_user (MessageDB.load_all store) []

end DiscordMessenger

/-- A record the reconciliation loop can process without raising: the
transport resolves the recipient, the channel-id check passes (either the
recipient id equals the stored channel id or the channel id parses), and
the interval parses. -/
def recOk (fetch_user : String → Option User) (r : Record) : Bool :=
  match fetch_user r.recipient_id with
  | none => false
  | some recipient =>
    (decide (toString recipient.id = r.channel_id) || (parseNat? r.channel_id).isSome) &&
      (parseNat? r.interval).isSome

/-- The scheduler entry the reconciliation loop builds for a record:
registered under the derived Job Identity with the record's interval,
suspended exactly when the record's status is `"Paused"`. -/
def mkJob (r : Record) : SchedJob :=
  { jobId := jobIdOf r
    seconds := (parseNat? r.interval).getD 0
    paused := decide (r.status = "Paused") }

/-- The scheduler state after the reconciliation loop has processed one
record: the job registered and, when the record's status is `"Paused"`,
marked paused. -/
def syncStepState (r : Record) (sched : Scheduler) : Scheduler :=
  let jid := jobIdOf r
  let sched1 := addJob sched jid ((parseNat? r.interval).getD 0)
  if r.status = "Paused" then
    List.map (fun j => if j.jobId = jid then { j with paused := true } else j) sched1
  else sched1

/-- A transport resolver whose targets all exist: the resolved user carries
the numeric reading of the requested id. -/
def ruAll : String → Option User :=
  fun rid => some { id := (parseNat? rid).getD 0, name := "target" }

/-- The bot's own user identity. -/
def bot0 : User := { id := 99, name := "scheduler-bot" }

/-- An initial process state over an empty, reachable table. -/
def s0 : SysState :=
  { db := { avail := true, items := [] }, sched := [], sent := [], help_text := "h" }

/-- The user issuing the commands of the concrete scenarios. -/
def author1 : User := { id := 1, name := "alice" }

/-- The `createdAt` timestamp of the concrete scenarios. -/
def ts1 : String := "2024-01-01 00:00:00"

/-- An Active record owned by author id `1` at `ts1`. -/
def rec1 : Record :=
  { user := "1", date_created := ts1, message := "hi", recipient_name := "bob",
    recipient_id := "7", channel_id := "7", interval := "60", status := "Active" }

/-- A state holding `rec1` with its armed timer registered. -/
def s1 : SysState :=
  { db := { avail := true, items := [rec1] }
    sched := [{ jobId := "1" ++ ts1, seconds := 60, paused := false }]
    sent := []
    help_text := "h" }

/-- A valid add command message: one mention, positive interval. -/
def msg2 : Message :=
  { content := "add <@7> 60 Hello", author := author1,
    channel := { id := 5, isDM := false },
    mentions := [{ id := 7, name := "bob" }], mentionsBot := false }

/-- A delete command for the record of `s1`. -/
def msg3 : Message :=
  { content := "delete 2024-01-01 00:00:00", author := author1,
    channel := { id := 5, isDM := false }, mentions := [], mentionsBot := false }

/-- The pre-existing record of the duplicate-creation scenario. -/
def rec4 : Record :=
  { user := "u", date_created := "d", message := "old", recipient_name := "r",
    recipient_id := "1", channel_id := "1", interval := "60", status := "Active" }

/-- A store already holding `rec4`. -/
def store4 : Store := { avail := true, items := [rec4] }

/-- The row that a second `add` at the key of `rec4` writes. -/
def rec4new : Record :=
  { user := "u", date_created := "d", message := "new", recipient_name := "r",
    recipient_id := "1", channel_id := "1", interval := "60", status := "Active" }

/-- The store after that second `add`: the original row is gone. -/
def store4new : Store := { avail := true, items := [rec4new] }

/-- Two Active records with distinct `(owner, createdAt)` keys whose derived
Job Identities collide: `"a" ++ "b 2024" = "ab" ++ " 2024"`. -/
def rec5a : Record :=
  { user := "a", date_created := "b 2024", message := "m", recipient_name := "r",
    recipient_id := "7", channel_id := "7", interval := "60", status := "Active" }

/-- See `rec5a`. -/
def rec5b : Record :=
  { user := "ab", date_created := " 2024", message := "m", recipient_name := "r",
    recipient_id := "7", channel_id := "7", interval := "60", status := "Active" }

/-- A store of two Active, resolvable records with colliding Job Identities. -/
def store5 : Store := { avail := true, items := [rec5a, rec5b] }

/-- An Active record for the reconciliation witness. -/
def rec5w1 : Record :=
  { user := "1", date_created := "d1", message := "m1", recipient_name := "r",
    recipient_id := "7", channel_id := "7", interval := "60", status := "Active" }

/-- A Paused record for the reconciliation witness. -/
def rec5w2 : Record :=
  { user := "2", date_created := "d2", message := "m2", recipient_name := "r",
    recipient_id := "8", channel_id := "8", interval := "30", status := "Paused" }

/-- A Deleted record for the reconciliation witness. -/
def rec5w3 : Record :=
  { user := "3", date_created := "d3", message := "m3", recipient_name := "r",
    recipient_id := "9", channel_id := "9", interval := "10", status := "Deleted" }

/-- A store of one Active, one Paused and one Deleted record, resolvable,
with pairwise distinct Job Identities. -/
def store5w : Store := { avail := true, items := [rec5w1, rec5w2, rec5w3] }

/-- A transport resolver that cannot find the user id `"bad"`. -/
def ru6 : String → Option User :=
  fun rid => if rid = "bad" then none else some { id := (parseNat? rid).getD 0, name := "t" }

/-- A record whose recipient `ru6` cannot resolve. -/
def rec6bad : Record :=
  { user := "x", date_created := "t1", message := "m", recipient_name := "r",
    recipient_id := "bad", channel_id := "0", interval := "60", status := "Active" }

/-- A perfectly resolvable Active record scanned after `rec6bad`. -/
def rec6good : Record :=
  { user := "y", date_created := "t2", message := "m", recipient_name := "r",
    recipient_id := "7", channel_id := "7", interval := "60", status := "Active" }

/-- A store where a broken record precedes a good one in the scan. -/
def store6 : Store := { avail := true, items := [rec6bad, rec6good] }

/-- An unreachable store holding `rec4` (connectivity failure scenario). -/
def store8 : Store := { avail := false, items := [rec4] }

/-- A reachable store for the conditional-miss comparison of the
connectivity scenario. -/
def store8b : Store := { avail := true, items := [rec4] }

/-- The record filling the first 5000 scan slots of the truncation
scenario. -/
def rec9dummy : Record :=
  { user := "u", date_created := "d", message := "m", recipient_name := "r",
    recipient_id := "1", channel_id := "1", interval := "60", status := "Active" }

/-- The non-deleted record sitting beyond the 5000-item scan cap. -/
def rec9tgt : Record :=
  { user := "v", date_created := "e", message := "m", recipient_name := "r",
    recipient_id := "1", channel_id := "1", interval := "60", status := "Active" }

/-- A table of 5001 rows: 5000 copies of `rec9dummy` followed by
`rec9tgt`. -/
def store9 : Store := { avail := true, items := List.replicate 5000 rec9dummy ++ [rec9tgt] }

/-- A two-row table (one Active, one Deleted) for the scan witness. -/
def store9w : Store := { avail := true, items := [rec5w1, rec5w3] }

/-- A message with empty content (ignored by `on_message`). -/
def msg10a : Message :=
  { content := "", author := author1, channel := { id := 5, isDM := false },
    mentions := [], mentionsBot := false }

/-- An add command whose execution raises (the `messsage` NameError),
exercising the exception boundary of `on_message`. -/
def msg10b : Message :=
  { content := "add <@7> 60 Hi", author := author1,
    channel := { id := 5, isDM := false },
    mentions := [{ id := 7, name := "bob" }], mentionsBot := false }

/-- Filtering a scheduler by "id differs from `jid`" keeps it intact when no
entry carries `jid`. -/
theorem filter_jobId_ne_of_fresh (sched : Scheduler) (jid : String)
    (h : ∀ j ∈ sched, j.jobId ≠ jid) :
    List.filter (fun j => j.jobId ≠ jid) sched = sched :=
  List.filter_eq_self.mpr (fun a ha => by simpa using h a ha)

/-- Marking the entry carrying `jid` paused is the identity map when no
entry carries `jid`. -/
theorem map_pause_of_fresh (sched : Scheduler) (jid : String)
    (h : ∀ j ∈ sched, j.jobId ≠ jid) :
    List.map (fun j => if j.jobId = jid then { j with paused := true } else j) sched = sched := by
  induction sched with
  | nil => rfl
  | cons a l ih =>
    simp only [List.map_cons]
    rw [if_neg (h a (List.mem_cons_self a l)),
      ih (fun j hj => h j (List.mem_cons_of_mem a hj))]

/-- Processing a record that resolves and parses cleanly: one loop
iteration of `__sync_scheduler` continues on the rest with the scheduler
advanced by `syncStepState`. -/
theorem sync_cons_ok (ru : String → Option User) (r : Record) (rest : List Record)
    (sched : Scheduler) (h : recOk ru r = true) :
    DiscordMessenger.sync_scheduler ru (r :: rest) sched =
      DiscordMessenger.sync_scheduler ru rest (syncStepState r sched) := by
  unfold recOk at h
  cases hru : ru r.recipient_id with
  | none => rw [hru] at h; exact absurd h (by simp)
  | some recipient =>
    rw [hru] at h
    simp only [Bool.and_eq_true, Bool.or_eq_true, decide_eq_true_eq,
      Option.isSome_iff_exists] at h
    obtain ⟨hchan, secs, hsecs⟩ := h
    have hcond : ¬ (toString recipient.id ≠ r.channel_id ∧ parseNat? r.channel_id = none) := by
      rintro ⟨hne, hnone⟩
      rcases hchan with hc | ⟨n, hn⟩
      · exact hne hc
      · rw [hn] at hnone; cases hnone
    have hany : List.any (addJob sched (r.user ++ r.date_created) secs)
        (fun j => j.jobId = (r.user ++ r.date_created)) = true := by
      simp [addJob]
    by_cases hp : r.status = "Paused"
    · simp only [DiscordMessenger.sync_scheduler, hru, hsecs, if_neg hcond, if_pos hp,
        syncStepState, jobIdOf, Option.getD_some, pauseJob, hany, if_true]
    · simp only [DiscordMessenger.sync_scheduler, hru, hsecs, if_neg hcond, if_neg hp,
        syncStepState, jobIdOf, Option.getD_some]

/-- When the derived Job Identity of a record is fresh in the scheduler,
one reconciliation step simply prepends the record's entry. -/
theorem syncStepState_fresh (r : Record) (sched : Scheduler)
    (h : ∀ j ∈ sched, j.jobId ≠ jobIdOf r) :
    syncStepState r sched = mkJob r :: sched := by
  by_cases hp : r.status = "Paused"
  · simp only [syncStepState, addJob, if_pos hp,
      filter_jobId_ne_of_fresh sched (jobIdOf r) h, List.map_cons,
      map_pause_of_fresh sched (jobIdOf r) h]
    simp [mkJob, hp]
  · simp only [syncStepState, addJob, if_neg hp,
      filter_jobId_ne_of_fresh sched (jobIdOf r) h]
    simp [mkJob, hp]

/-- A reconciliation pass over records that all resolve cleanly, whose Job
Identities are pairwise distinct and fresh in the starting scheduler,
succeeds and registers exactly one entry per record. -/
theorem sync_run_fresh (ru : String → Option User) (rs : List Record) :
    ∀ sched : Scheduler,
      (∀ r ∈ rs, recOk ru r = true) →
      ((rs.map jobIdOf).Nodup) →
      (∀ r ∈ rs, ∀ j ∈ sched, j.jobId ≠ jobIdOf r) →
      DiscordMessenger.sync_scheduler ru rs sched = ((rs.map mkJob).reverse ++ sched, none) := by
  induction rs with
  | nil => intro sched _ _ _; simp [DiscordMessenger.sync_scheduler]
  | cons r rs ih =>
    intro sched hok hnd hfresh
    have hmemmap := List.map_cons jobIdOf r rs
    rw [hmemmap] at hnd
    have hnotmem : jobIdOf r ∉ rs.map jobIdOf := (List.nodup_cons.mp hnd).1
    have hnd2 : (rs.map jobIdOf).Nodup := (List.nodup_cons.mp hnd).2
    rw [sync_cons_ok ru r rs sched (hok r (List.mem_cons_self r rs)),
      syncStepState_fresh r sched (hfresh r (List.mem_cons_self r rs))]
    rw [ih (mkJob r :: sched) (fun q hq => hok q (List.mem_cons_of_mem r hq)) hnd2 ?hfr]
    case hfr =>
      intro q hq j hj
      rcases List.mem_cons.mp hj with rfl | hj2
      · intro hEq
        have hEq2 : jobIdOf r = jobIdOf q := hEq
        exact hnotmem (by rw [hEq2]; exact List.mem_map_of_mem jobIdOf hq)
      · exact hfresh q (List.mem_cons_of_mem r hq) j hj2
    simp

/-- A reconciliation pass first processes a prefix of cleanly resolving
records, then continues on the rest from the scheduler state the prefix
produced. -/
theorem sync_append_ok (ru : String → Option User) (pre : List Record) :
    ∀ (rest : List Record) (sched : Scheduler),
      (∀ r ∈ pre, recOk ru r = true) →
      DiscordMessenger.sync_scheduler ru (pre ++ rest) sched =
        DiscordMessenger.sync_scheduler ru rest
          (DiscordMessenger.sync_scheduler ru pre sched).1 := by
  induction pre with
  | nil => intro rest sched _; simp [DiscordMessenger.sync_scheduler]
  | cons r pre ih =>
    intro rest sched hok
    have hr := hok r (List.mem_cons_self r pre)
    rw [List.cons_append, sync_cons_ok ru r (pre ++ rest) sched hr,
      sync_cons_ok ru r pre sched hr]
    exact ih rest (syncStepState r sched) (fun q hq => hok q (List.mem_cons_of_mem r hq))

/-- Within the 5000-item scan cap, `load_all` is exactly the non-deleted
filter of the table. -/
theorem load_all_of_le (store : Store) (h : store.items.length ≤ 5000) :
    MessageDB.load_all store = store.items.filter (fun r => r.status ≠ "Deleted") := by
  unfold MessageDB.load_all
  rw [List.take_of_length_le h]

/-- Claim C1: the spec asserts that a pause command on an existing record
sets the record's `status` to `Paused` — the very value the Reconciliation
Routine tests for — and suspends the scheduler job. The code is wrong: it
writes the string `"Pause"` while `__sync_scheduler` tests `"Paused"`.
Evaluated at the failing input: the command succeeds and suspends the live
timer, but the stored status is `"Pause"` (not `"Paused"`), so a subsequent
reconciliation of the mutated store re-arms the timer instead of keeping it
suspended. -/
theorem c1_pause_writes_Pause_not_Paused :
    (DiscordMessenger._execute_deactivate author1 ts1 s1).2 = none ∧
    (DiscordMessenger._execute_deactivate author1 ts1 s1).1.db.items =
      [{ rec1 with status := "Pause" }] ∧
    "Pause" ≠ "Paused" ∧
    (DiscordMessenger._execute_deactivate author1 ts1 s1).1.sched =
      [{ jobId := "1" ++ ts1, seconds := 60, paused := true }] ∧
    DiscordMessenger.syncAll ruAll (DiscordMessenger._execute_deactivate author1 ts1 s1).1.db =
      ([{ jobId := "1" ++ ts1, seconds := 60, paused := false }], none) := by
  decide

/-- Claim C2: the spec asserts that a valid add command leaves one
additional non-Deleted record for the owner and an armed job at the derived
Job Identity. The code is wrong: `_execute_add` reads `len(messsage.mentions)`
(undefined name `messsage`), so every add raises `NameError` before any
store or scheduler mutation. Evaluated at a valid add input: the dispatch
raises, `on_message` only logs the error, and the state — store, scheduler
and owner lookup — is exactly the initial one. -/
theorem c2_add_always_raises_nameError :
    DiscordMessenger.dispatch msg2 s0 = (s0, some PyErr.nameError) ∧
    DiscordMessenger.on_message bot0 msg2 s0 = (s0, [pyErrMsg PyErr.nameError]) ∧
    MessageDB.lookup s0.db Column.user (toString author1.id) = [] := by
  decide

/-- Claim C3: the spec asserts that delete attempts the store soft-delete
first, runs the scheduler removal regardless, and replies "deleted" or
"not found". The code is wrong: `MessageDB.delete` calls the undefined
method `self.update_status`, raising `AttributeError`, so no reply is sent,
no record is marked `Deleted` and `remove_job` never runs. Evaluated at a
delete command on an existing active record: `on_message` returns the state
unchanged with only the logged `AttributeError`. -/
theorem c3_delete_always_raises_attributeError :
    DiscordMessenger.on_message bot0 msg3 s1 = (s1, [pyErrMsg PyErr.attributeError]) := by
  decide

/-- Claim C4, counterexample: the claim says creating a record whose
`(owner, createdAt)` key already exists fails with `DuplicateKey` and never
overwrites. At this concrete input the create succeeds (`Except.ok`) and
the pre-existing row `rec4` is gone from the resulting table. -/
theorem c4_duplicate_create_overwrites_counterexample :
    MessageDB.add store4 "d" "u" "new" "r" "1" "1" "60" "Active" = Except.ok store4new ∧
    rec4 ∈ store4.items ∧
    rec4 ∉ store4new.items :=
  ⟨rfl, by decide, by decide⟩

/-- Claim C4, amended: `create` is an unconditional put — it never raises a
duplicate-key failure; on a reachable store it succeeds, the new row is
present, and every pre-existing row at the same `(owner, createdAt)` key is
replaced (last-write-wins). -/
theorem c4_amended_create_last_write_wins (store : Store)
    (date_created user message recipient_name recipient_id channel_id interval status : String)
    (h : store.avail = true) :
    ∃ store1,
      MessageDB.add store date_created user message recipient_name recipient_id
          channel_id interval status = Except.ok store1 ∧
      ({ user := user, date_created := date_created, message := message,
         recipient_name := recipient_name, recipient_id := recipient_id,
         channel_id := channel_id, interval := interval, status := status } : Record) ∈ store1.items ∧
      ∀ r ∈ store.items, r.user = user → r.date_created = date_created →
        r ≠ ({ user := user, date_created := date_created, message := message,
               recipient_name := recipient_name, recipient_id := recipient_id,
               channel_id := channel_id, interval := interval, status := status } : Record) →
        r ∉ store1.items := by
  refine ⟨{ store with items :=
      ({ user := user, date_created := date_created, message := message,
         recipient_name := recipient_name, recipient_id := recipient_id,
         channel_id := channel_id, interval := interval, status := status } : Record) ::
        store.items.filter (fun r => ¬ (r.user = user ∧ r.date_created = date_created)) },
    ?_, ?_, ?_⟩
  · unfold MessageDB.add
    simp [h]
  · exact List.mem_cons_self _ _
  · intro r hr hu hd hne hmem
    rcases List.mem_cons.mp hmem with heq | hmem2
    · exact hne heq
    · have hkeep := List.of_mem_filter hmem2
      simp only [decide_eq_true_eq] at hkeep
      exact hkeep ⟨hu, hd⟩

/-- Witness for the amended Claim C4, at the duplicate-creation input. -/
theorem c4_amended_witness :
    store4.avail = true ∧
    (∃ store1,
      MessageDB.add store4 "d" "u" "new" "r" "1" "1" "60" "Active" = Except.ok store1 ∧
      ({ user := "u", date_created := "d", message := "new",
         recipient_name := "r", recipient_id := "1",
         channel_id := "1", interval := "60", status := "Active" } : Record) ∈ store1.items ∧
      ∀ r ∈ store4.items, r.user = "u" → r.date_created = "d" →
        r ≠ ({ user := "u", date_created := "d", message := "new",
               recipient_name := "r", recipient_id := "1",
               channel_id := "1", interval := "60", status := "Active" } : Record) →
        r ∉ store1.items) :=
  ⟨rfl, c4_amended_create_last_write_wins store4 "d" "u" "new" "r" "1" "1" "60" "Active" rfl⟩

/-- Claim C7: a conditional update whose target value equals the current
value, or whose key matches no record, returns `false` without throwing and
alters nothing: `update_item` raises `ConditionalCheckFailedException` in
both cases (and a connectivity failure raises too), the blanket handler of
`MessageDB.update` turns any raise into `false`, and the returned store is
the unmodified input. -/
theorem c7_conditional_update_miss_returns_false
    (store : Store) (user date : String) (key : Column) (v : String)
    (h : findRecord store user date = none ∨
      ∃ r, findRecord store user date = some r ∧ getField r key = v) :
    MessageDB.update store user date key v = (false, store) := by
  unfold MessageDB.update MessageDB.update_item
  cases havail : store.avail with
  | false => simp [havail]
  | true =>
    rcases h with hnone | ⟨r, hr, hv⟩
    · simp [havail, hnone]
    · simp [havail, hr, hv]

/-- Witness for Claim C7: a no-op status update on an existing record. -/
theorem c7_witness :
    (findRecord store8b "u" "d" = none ∨
      ∃ r, findRecord store8b "u" "d" = some r ∧ getField r Column.status = "Active") ∧
    MessageDB.update store8b "u" "d" Column.status "Active" = (false, store8b) :=
  ⟨Or.inr ⟨rec4, by decide, by decide⟩,
    c7_conditional_update_miss_returns_false store8b "u" "d" Column.status "Active"
      (Or.inr ⟨rec4, by decide, by decide⟩)⟩

/-- Claim C8, counterexample: the claim says a connectivity failure during
`setField` propagates to the caller as a `StorageUnavailable` error,
distinguishable from a conditional-update miss returning `false`. At this
concrete input the backing call does raise `storageUnavailable`, but the
blanket `except Exception` of `MessageDB.update` swallows it: the caller
sees `(false, unchanged store)` — byte-for-byte the same shape a
conditional miss produces on a reachable store. -/
theorem c8_unavailable_swallowed_counterexample :
    MessageDB.update_item store8 "u" "d" Column.status "Paused" =
      Except.error DynErr.storageUnavailable ∧
    MessageDB.update store8 "u" "d" Column.status "Paused" = (false, store8) ∧
    MessageDB.update store8b "u" "missing" Column.status "Paused" = (false, store8b) :=
  ⟨rfl, by decide, by decide⟩

/-- Claim C8, amended: on an unreachable store the backing `update_item`
raises `storageUnavailable`, and `MessageDB.update` swallows it, returning
`false` with the store unchanged — the error never propagates to the
caller. -/
theorem c8_amended_unavailable_returns_false (store : Store) (user date : String)
    (key : Column) (v : String) (h : store.avail = false) :
    MessageDB.update_item store user date key v = Except.error DynErr.storageUnavailable ∧
    MessageDB.update store user date key v = (false, store) := by
  constructor
  · unfold MessageDB.update_item
    simp [h]
  · unfold MessageDB.update MessageDB.update_item
    simp [h]

/-- Witness for the amended Claim C8, at the unreachable store. -/
theorem c8_amended_witness :
    store8.avail = false ∧
    (MessageDB.update_item store8 "u" "d" Column.status "Paused" =
        Except.error DynErr.storageUnavailable ∧
      MessageDB.update store8 "u" "d" Column.status "Paused" = (false, store8)) :=
  ⟨rfl, c8_amended_unavailable_returns_false store8 "u" "d" Column.status "Paused" rfl⟩

/-- Claim C10: `on_message` never propagates an exception — a message with
empty content or authored by the bot itself is ignored with no store,
scheduler or send mutation, and when the dispatched command raises, the
boundary returns the dispatch's state with the exception only logged. -/
theorem c10_on_message_catches_all (bot : User) (msg : Message) (s : SysState) :
    ((msg.content = "" ∨ msg.author = bot) →
      DiscordMessenger.on_message bot msg s = (s, [])) ∧
    (msg.content ≠ "" → msg.author ≠ bot →
      ∀ s1 e, DiscordMessenger.dispatch msg s = (s1, some e) →
        DiscordMessenger.on_message bot msg s = (s1, [pyErrMsg e])) := by
  constructor
  · intro h
    unfold DiscordMessenger.on_message
    rw [if_pos h]
  · intro h1 h2 s1 e hd
    unfold DiscordMessenger.on_message
    rw [if_neg (not_or.mpr ⟨h1, h2⟩), hd]

/-- Witness for Claim C10: an ignored empty message, and a raising add
command whose `NameError` is only logged. -/
theorem c10_witness :
    DiscordMessenger.on_message bot0 msg10a s0 = (s0, []) ∧
    DiscordMessenger.on_message bot0 msg10b s0 = (s0, [pyErrMsg PyErr.nameError]) :=
  ⟨(c10_on_message_catches_all bot0 msg10a s0).1 (Or.inl rfl),
    (c10_on_message_catches_all bot0 msg10b s0).2 (by decide) (by decide) s0 PyErr.nameError
      (by decide)⟩

/-- Claim C5, counterexample: the claim promises exactly N armed entries
for N Active records (all resolvable). Here two Active resolvable records
with distinct `(owner, createdAt)` keys concatenate to the same Job
Identity (`"a" ++ "b 2024" = "ab" ++ " 2024"`), so the reconciliation run
completes without error yet registers a single armed entry: N = 2 but the
scheduler holds 1. -/
theorem c5_identity_collision_counterexample :
    (DiscordMessenger.syncAll ruAll store5).2 = none ∧
    store5.items.countP (fun r => r.status = "Active") = 2 ∧
    armedCount (DiscordMessenger.syncAll ruAll store5).1 = 1 := by
  decide

/-- Claim C5, amended: on a store of at most 5000 records (the scan cap)
whose non-deleted records all resolve and whose derived Job Identities are
pairwise distinct, one reconciliation run succeeds and yields exactly one
armed entry per Active record, one paused entry per Paused record, no
entry for a Deleted record, and no duplicate timer for any Job Identity. -/
theorem c5_amended_reconciliation_counts (ru : String → Option User) (store : Store)
    (hlen : store.items.length ≤ 5000)
    (hok : ∀ r ∈ store.items, r.status ≠ "Deleted" → recOk ru r = true)
    (hstat : ∀ r ∈ store.items,
      r.status = "Active" ∨ r.status = "Paused" ∨ r.status = "Deleted")
    (hnd : (store.items.map jobIdOf).Nodup) :
    (DiscordMessenger.syncAll ru store).2 = none ∧
    armedCount (DiscordMessenger.syncAll ru store).1 =
      store.items.countP (fun r => r.status = "Active") ∧
    pausedCount (DiscordMessenger.syncAll ru store).1 =
      store.items.countP (fun r => r.status = "Paused") ∧
    (List.map (fun j => j.jobId) (DiscordMessenger.syncAll ru store).1).Nodup ∧
    (∀ r ∈ store.items, r.status = "Deleted" →
      ∀ j ∈ (DiscordMessenger.syncAll ru store).1, j.jobId ≠ jobIdOf r) := by
  have hL := load_all_of_le store hlen
  have hokL : ∀ r ∈ store.items.filter (fun r => r.status ≠ "Deleted"), recOk ru r = true := by
    intro r hr
    have hm := List.mem_filter.mp hr
    exact hok r hm.1 (by simpa using hm.2)
  have hndL : ((store.items.filter (fun r => r.status ≠ "Deleted")).map jobIdOf).Nodup :=
    List.Nodup.sublist ((List.filter_sublist store.items).map jobIdOf) hnd
  have hrun := sync_run_fresh ru (store.items.filter (fun r => r.status ≠ "Deleted")) []
    hokL hndL (by intro r _ j hj; cases hj)
  have hsync : DiscordMessenger.syncAll ru store =
      (((store.items.filter (fun r => r.status ≠ "Deleted")).map mkJob).reverse, none) := by
    unfold DiscordMessenger.syncAll
    rw [hL, hrun, List.append_nil]
  rw [hsync]
  refine ⟨rfl, ?_, ?_, ?_, ?_⟩
  · unfold armedCount
    rw [List.countP_reverse, List.countP_map, List.countP_filter]
    refine List.countP_congr ?_
    intro x hx
    rcases hstat x hx with h1 | h1 | h1 <;> simp [Function.comp, mkJob, h1]
  · unfold pausedCount
    rw [List.countP_reverse, List.countP_map, List.countP_filter]
    refine List.countP_congr ?_
    intro x hx
    rcases hstat x hx with h1 | h1 | h1 <;> simp [Function.comp, mkJob, h1]
  · rw [List.map_reverse, List.map_map, List.nodup_reverse]
    have hcomp : ((fun j => j.jobId) ∘ mkJob) = jobIdOf := rfl
    rw [hcomp]
    exact hndL
  · intro r hr hdel j hj hjid
    rw [List.mem_reverse] at hj
    obtain ⟨q, hq, rfl⟩ := List.mem_map.mp hj
    have hq1 : q ∈ store.items := List.mem_of_mem_filter hq
    have heq : jobIdOf q = jobIdOf r := hjid
    have hqr : q = r := List.inj_on_of_nodup_map hnd hq1 hr heq
    have hq2 := (List.mem_filter.mp hq).2
    rw [hqr, hdel] at hq2
    simp at hq2

/-- Witness for the amended Claim C5: a store of one Active, one Paused and
one Deleted record reconciles to one armed and one paused entry. -/
theorem c5_amended_witness :
    store5w.items.length ≤ 5000 ∧
    ((DiscordMessenger.syncAll ruAll store5w).2 = none ∧
      armedCount (DiscordMessenger.syncAll ruAll store5w).1 =
        store5w.items.countP (fun r => r.status = "Active") ∧
      pausedCount (DiscordMessenger.syncAll ruAll store5w).1 =
        store5w.items.countP (fun r => r.status = "Paused") ∧
      (List.map (fun j => j.jobId) (DiscordMessenger.syncAll ruAll store5w).1).Nodup ∧
      (∀ r ∈ store5w.items, r.status = "Deleted" →
        ∀ j ∈ (DiscordMessenger.syncAll ruAll store5w).1, j.jobId ≠ jobIdOf r)) :=
  ⟨by decide,
    c5_amended_reconciliation_counts ruAll store5w (by decide) (by decide) (by decide)
      (by decide)⟩

/-- Claim C6, counterexample: the claim says a record whose recipient fails
to resolve blocks only itself and the reconciliation pass never aborts. At
this concrete input the broken record precedes a perfectly processable one;
the pass aborts at the broken record with nothing registered — the good
record is never processed. -/
theorem c6_bad_record_aborts_counterexample :
    rec6good ∈ store6.items ∧
    recOk ru6 rec6good = true ∧
    DiscordMessenger.syncAll ru6 store6 = ([], some (SyncErr.fetchUserError rec6bad)) := by
  decide

/-- Claim C6, amended: a recipient-resolution failure aborts the
reconciliation pass at the failing record — the cleanly processed prefix
stays registered, the failing record and everything scanned after it are
not processed. -/
theorem c6_amended_abort_at_failing_record (ru : String → Option User)
    (pre post : List Record) (b : Record) (sched : Scheduler)
    (hpre : ∀ r ∈ pre, recOk ru r = true)
    (hb : ru b.recipient_id = none) :
    DiscordMessenger.sync_scheduler ru (pre ++ b :: post) sched =
      ((DiscordMessenger.sync_scheduler ru pre sched).1, some (SyncErr.fetchUserError b)) := by
  rw [sync_append_ok ru pre (b :: post) sched hpre]
  generalize (DiscordMessenger.sync_scheduler ru pre sched).1 = X
  simp only [DiscordMessenger.sync_scheduler, hb]

/-- Witness for the amended Claim C6: a good record followed by a broken
one — the pass keeps the good registration and aborts at the broken
record. -/
theorem c6_amended_witness :
    (∀ r ∈ [rec6good], recOk ru6 r = true) ∧
    ru6 rec6bad.recipient_id = none ∧
    DiscordMessenger.sync_scheduler ru6 ([rec6good] ++ rec6bad :: []) [] =
      ((DiscordMessenger.sync_scheduler ru6 [rec6good] []).1,
        some (SyncErr.fetchUserError rec6bad)) :=
  ⟨by decide, by decide,
    c6_amended_abort_at_failing_record ru6 [rec6good] [] rec6bad [] (by decide) (by decide)⟩

/-- Claim C9, counterexample: the claim says `scanAll` produces every
non-Deleted record no matter how many records the table holds. The
paginated scan caps at `MaxItems = 5000`: in a table of 5001 rows, the
non-Deleted record in position 5001 is never produced. -/
theorem c9_truncation_counterexample :
    rec9tgt ∈ store9.items ∧
    rec9tgt.status ≠ "Deleted" ∧
    rec9tgt ∉ MessageDB.load_all store9 := by
  refine ⟨?_, by decide, ?_⟩
  · exact List.mem_append_right _ (List.mem_singleton.mpr rfl)
  · intro hmem
    unfold MessageDB.load_all at hmem
    have hitems : store9.items = List.replicate 5000 rec9dummy ++ [rec9tgt] := rfl
    rw [hitems, List.take_left' (List.length_replicate 5000 rec9dummy)] at hmem
    have h1 := List.mem_of_mem_filter hmem
    have h2 := List.eq_of_mem_replicate h1
    exact absurd h2 (by decide)

/-- Claim C9, amended: within the 5000-item scan cap, `load_all` produces
each non-Deleted record of the table exactly once and no Deleted record. -/
theorem c9_amended_scan_within_cap (store : Store)
    (hnd : store.items.Nodup) (hlen : store.items.length ≤ 5000) :
    ∀ r ∈ store.items,
      (r.status ≠ "Deleted" → (MessageDB.load_all store).count r = 1) ∧
      (r.status = "Deleted" → r ∉ MessageDB.load_all store) := by
  intro r hr
  rw [load_all_of_le store hlen]
  constructor
  · intro hs
    exact List.count_eq_one_of_mem (List.Nodup.filter _ hnd)
      (List.mem_filter.mpr ⟨hr, by simpa using hs⟩)
  · intro hs hmem
    have h2 := (List.mem_filter.mp hmem).2
    rw [hs] at h2
    simp at h2

/-- Witness for the amended Claim C9: a two-row table — the Active row is
produced exactly once, the Deleted row not at all. -/
theorem c9_amended_witness :
    store9w.items.Nodup ∧
    ((MessageDB.load_all store9w).count rec5w1 = 1 ∧
      rec5w3 ∉ MessageDB.load_all store9w) :=
  ⟨by decide,
    ⟨(c9_amended_scan_within_cap store9w (by decide) (by decide) rec5w1 (by decide)).1
        (by decide),
      (c9_amended_scan_within_cap store9w (by decide) (by decide) rec5w3 (by decide)).2
        (by decide)⟩⟩
